import Mathlib

/-!
Verification of the eThekwini GIS MCP server core
(`src/ethekwini_gis_mcp.py`, class `EThekwiniGISServer`).

The embedding models the discovery/caching core as pure functions:

* The Python dict (insertion-ordered, update-in-place) is an association
  list with `dinsert` (replace in place when the key exists, append
  otherwise) and `dlookup`.
* The remote ArcGIS endpoint is a `Remote` record of response functions:
  `serviceInfo` models `_get_service_info` (which catches every exception
  and returns `None` on failure or non-200, so a probe is `Option`-valued;
  `none` also covers a falsy empty-dict response, which the source's
  `if service_info:` check skips identically); the root catalog and folder
  catalog probes are `ProbeResult` values distinguishing a parsed response,
  a non-200 status, and a raised exception, because `_refresh_datasets`
  reads `status_code` before parsing and wraps the block in `try/except`.
* Wall-clock time is a `Nat` passed explicitly (`time.time()`).
* Every network request issued is appended to a trace list, so "no network
  calls" is the trace being empty.
* Coordinates of `_spatial_query_by_coordinates` are `ℚ`: the source does
  no arithmetic on them (pure pass-through plus one truthiness test
  against zero), so rationals model the float parameters faithfully.

Inside `_refresh_datasets` every statement that can raise is wrapped in a
nested `try/except` (per known service, per discovered service, per
folder, per folder service, and one around the whole root-catalog sweep),
so the outer `except` at the end of `_refresh_datasets` is unreachable
and the function is modelled as total; likewise `_add_known_service`'s
`except` branch is unreachable because its only fallible callee is
`_refresh_datasets`.
-/

namespace EthekwiniGIS

/-- `self.api_base` from `EThekwiniGISServer.__init__`. -/
def apiBase : String :=
  "https://services3.arcgis.com/HO0zfySJshlD6Twu/arcgis/rest/services"

/-- The fields of a parsed service descriptor (`_get_service_info` JSON)
that `_refresh_datasets` reads: `serviceDescription`, `description`,
`layers`.  Layer descriptors are opaque to the system and modelled as
strings. -/
structure ServiceInfo where
  serviceDescription : Option String
  description : Option String
  layers : List String
deriving DecidableEq, Repr

/-- The normalized dataset record built by `_refresh_datasets`
(`dataset_info` dict literals).  The source key `"type"` is the field
`serviceType`; `owner` is the single name string stored under
`{"name": ...}`. -/
structure DatasetRecord where
  id : String
  name : String
  title : String
  description : String
  serviceType : String
  url : String
  created : String
  updated : String
  tags : List String
  categories : List String
  owner : String
  service_info : ServiceInfo
  layers : List String
deriving DecidableEq, Repr

/-- The secondary `all_services` entry built by `_refresh_datasets`. -/
structure ServiceEntry where
  name : String
  url : String
  serviceType : String
  dataset_id : String
  info : ServiceInfo
deriving DecidableEq, Repr

/-- One entry of the root/folder catalog `services` array:
`service.get("name", "")` and `service.get("type", "")`. -/
structure CatalogService where
  name : String
  serviceType : String
deriving DecidableEq, Repr

/-- A parsed root catalog response: `services` and `folders` arrays. -/
structure CatalogData where
  services : List CatalogService
  folders : List String
deriving DecidableEq, Repr

/-- Outcome of a catalog GET: parsed 200 response, non-200 status
(`status_code != 200`, no exception), or a raised exception (network
failure or unparsable body). -/
inductive ProbeResult (α : Type) where
  | ok (data : α)
  | httpError
  | thrown
deriving DecidableEq, Repr

/-- The remote ArcGIS endpoint as a pure environment. -/
structure Remote where
  serviceInfo : String → Option ServiceInfo
  catalog : ProbeResult CatalogData
  folderCatalog : String → ProbeResult (List CatalogService)

/-- The mutable server state touched by the discovery core:
`self.known_services`, `self.cached_datasets`, `self.cached_services`,
`self.last_refresh`. -/
structure GISState where
  knownServices : List (String × String)
  cachedDatasets : List (String × DatasetRecord)
  cachedServices : List (String × ServiceEntry)
  lastRefresh : Option Nat
deriving Repr

/-- Python dict assignment `d[k] = v`: replace in place if the key
exists, else append. -/
def dinsert {α : Type} (k : String) (v : α) :
    List (String × α) → List (String × α)
  | [] => [(k, v)]
  | (k', v') :: rest =>
    if k' = k then (k, v) :: rest else (k', v') :: dinsert k v rest

/-- Python dict lookup `d[k]` / `k in d`. -/
def dlookup {α : Type} (k : String) : List (String × α) → Option α
  | [] => none
  | (k', v) :: rest => if k' = k then some v else dlookup k rest

/-- Python `str.lower()` as used on ASCII service names: charwise
lowercase.  Extensionally `String.toLower`, but defined by structural
recursion on the character list so that concrete discovery passes
reduce inside the kernel. -/
def strLower (s : String) : String := ⟨s.data.map Char.toLower⟩

/-- Python `str.replace("/", "_")`: for the one-character pattern used
by the source this is charwise replacement of every `/` by `_`. -/
def slashToUnderscore (s : String) : String :=
  ⟨s.data.map (fun c => if c = '/' then '_' else c)⟩

/-- The `dataset_info` literal of the known-service loop
(`_refresh_datasets`, first loop).  Note the default description reads
"feature service", unlike the root/folder branches. -/
def knownDatasetInfo (service_name service_url : String)
    (info : ServiceInfo) : DatasetRecord :=
  { id := strLower service_name
    name := service_name
    title := info.serviceDescription.getD service_name
    description := info.description.getD
      (service_name ++ " feature service from eThekwini municipality")
    serviceType := "Feature Service"
    url := service_url
    created := ""
    updated := ""
    tags := ["eThekwini", "municipality", "GIS"]
    categories := ["Municipal Services"]
    owner := "eThekwini Municipality"
    service_info := info
    layers := info.layers }

/-- The `all_services` entry of the known-service loop. -/
def knownServiceEntry (service_name service_url : String)
    (info : ServiceInfo) : ServiceEntry :=
  { name := service_name
    url := service_url
    serviceType := "Feature Service"
    dataset_id := strLower service_name
    info := info }

/-- The `dataset_info` literal of the root-services loop. -/
def rootDatasetInfo (service_name service_type service_url : String)
    (info : ServiceInfo) : DatasetRecord :=
  { id := strLower service_name
    name := service_name
    title := info.serviceDescription.getD service_name
    description := info.description.getD
      (service_name ++ " service from eThekwini municipality")
    serviceType := service_type
    url := service_url
    created := ""
    updated := ""
    tags := ["eThekwini", "municipality", "GIS"]
    categories := ["Municipal Services"]
    owner := "eThekwini Municipality"
    service_info := info
    layers := info.layers }

/-- The `all_services` entry of the root-services loop. -/
def rootServiceEntry (service_name service_type service_url : String)
    (info : ServiceInfo) : ServiceEntry :=
  { name := service_name
    url := service_url
    serviceType := service_type
    dataset_id := strLower service_name
    info := info }

/-- The `dataset_info` literal of the folder-services loop.  The id is
`full_service_name.lower().replace("/", "_")`; title and default
description use the bare (unqualified) `service_name`; the folder name
is appended to tags and categories. -/
def folderDatasetInfo (folder service_name service_type service_url : String)
    (info : ServiceInfo) : DatasetRecord :=
  { id := slashToUnderscore (strLower (folder ++ "/" ++ service_name))
    name := folder ++ "/" ++ service_name
    title := info.serviceDescription.getD service_name
    description := info.description.getD
      (service_name ++ " service from eThekwini municipality")
    serviceType := service_type
    url := service_url
    created := ""
    updated := ""
    tags := ["eThekwini", "municipality", "GIS", folder]
    categories := ["Municipal Services", folder]
    owner := "eThekwini Municipality"
    service_info := info
    layers := info.layers }

/-- The `all_services` entry of the folder-services loop. -/
def folderServiceEntry (folder service_name service_type service_url : String)
    (info : ServiceInfo) : ServiceEntry :=
  { name := folder ++ "/" ++ service_name
    url := service_url
    serviceType := service_type
    dataset_id := slashToUnderscore (strLower (folder ++ "/" ++ service_name))
    info := info }

/-- The working set `all_datasets` / `all_services` built by one
discovery pass, plus the trace of URLs the pass requested. -/
structure WorkingSet where
  datasets : List (String × DatasetRecord)
  services : List (String × ServiceEntry)
  trace : List String
deriving Repr

/-- One iteration of the known-services loop: probe the URL
(`_get_service_info` always issues the GET); on success insert under
`service_name.lower()`; on failure (`except` / falsy response) log and
continue. -/
def knownStep (remote : Remote) (ws : WorkingSet)
    (entry : String × String) : WorkingSet :=
  let ws := { ws with trace := ws.trace ++ [entry.2] }
  match remote.serviceInfo entry.2 with
  | none => ws
  | some info =>
    { ws with
      datasets := dinsert (strLower entry.1)
        (knownDatasetInfo entry.1 entry.2 info) ws.datasets
      services := dinsert entry.1
        (knownServiceEntry entry.1 entry.2 info) ws.services }

/-- The whole known-services loop. -/
def knownPhase (remote : Remote) (entries : List (String × String))
    (ws : WorkingSet) : WorkingSet :=
  entries.foldl (knownStep remote) ws

/-- `f"{self.api_base}/{service_name}/{service_type}"`. -/
def rootServiceUrl (service_name service_type : String) : String :=
  apiBase ++ "/" ++ service_name ++ "/" ++ service_type

/-- One iteration of the root-services loop: skip unless the type is
`FeatureServer`/`MapServer` and the name is not a key of
`self.known_services`; then probe and insert on success. -/
def rootStep (remote : Remote) (knownNames : List String)
    (ws : WorkingSet) (svc : CatalogService) : WorkingSet :=
  if (svc.serviceType == "FeatureServer" || svc.serviceType == "MapServer")
      && !(knownNames.contains svc.name) then
    let url := rootServiceUrl svc.name svc.serviceType
    let ws := { ws with trace := ws.trace ++ [url] }
    match remote.serviceInfo url with
    | none => ws
    | some info =>
      { ws with
        datasets := dinsert (strLower svc.name)
          (rootDatasetInfo svc.name svc.serviceType url info) ws.datasets
        services := dinsert svc.name
          (rootServiceEntry svc.name svc.serviceType url info) ws.services }
  else ws

/-- `f"{self.api_base}/{full_service_name}/{service_type}"`. -/
def folderServiceUrl (folder service_name service_type : String) : String :=
  apiBase ++ "/" ++ (folder ++ "/" ++ service_name) ++ "/" ++ service_type

/-- One iteration of the inner folder-services loop: only the type is
checked (no known-registry exclusion in this branch); key and id are the
folder-qualified name lowercased with `/` replaced by `_`. -/
def folderServiceStep (remote : Remote) (folder : String)
    (ws : WorkingSet) (svc : CatalogService) : WorkingSet :=
  if svc.serviceType == "FeatureServer" || svc.serviceType == "MapServer" then
    let url := folderServiceUrl folder svc.name svc.serviceType
    let ws := { ws with trace := ws.trace ++ [url] }
    match remote.serviceInfo url with
    | none => ws
    | some info =>
      { ws with
        datasets := dinsert
          (slashToUnderscore (strLower (folder ++ "/" ++ svc.name)))
          (folderDatasetInfo folder svc.name svc.serviceType url info)
          ws.datasets
        services := dinsert (folder ++ "/" ++ svc.name)
          (folderServiceEntry folder svc.name svc.serviceType url info)
          ws.services }
  else ws

/-- One iteration of the folder loop: probe the folder catalog
(`f"{api_base}/{folder}?f=json"`); on a 200 response sweep its services;
a non-200 status or a raised exception skips this folder only
(per-folder `try/except`). -/
def folderStep (remote : Remote) (ws : WorkingSet)
    (folder : String) : WorkingSet :=
  let ws := { ws with trace := ws.trace ++ [apiBase ++ "/" ++ folder ++ "?f=json"] }
  match remote.folderCatalog folder with
  | .ok svcs => svcs.foldl (folderServiceStep remote folder) ws
  | .httpError => ws
  | .thrown => ws

/-- The root-catalog sweep (`try` block around
`self.client.get(f"{self.api_base}?f=json")`): on a parsed 200 response
run the root-services loop then the folder loop; a non-200 status skips
the sweep silently; a raised exception is caught by this block's own
`except` (logged as "Could not discover additional services") and the
pass continues — it does NOT reach the outer handler of
`_refresh_datasets`. -/
def catalogPhase (remote : Remote) (knownNames : List String)
    (ws : WorkingSet) : WorkingSet :=
  let ws := { ws with trace := ws.trace ++ [apiBase ++ "?f=json"] }
  match remote.catalog with
  | .ok cd =>
    let ws := cd.services.foldl (rootStep remote knownNames) ws
    cd.folders.foldl (folderStep remote) ws
  | .httpError => ws
  | .thrown => ws

/-- The staleness gate of `_refresh_datasets`:
`not force and self.last_refresh and (time.time() - self.last_refresh) < 900`.
Python truthiness of the float `last_refresh` requires it nonzero; Nat
truncated subtraction agrees with the Python comparison (a negative
difference is also `< 900`). -/
def staleGate (st : GISState) (now : Nat) : Bool :=
  match st.lastRefresh with
  | none => false
  | some t => !(t == 0) && decide (now - t < 900)

/-- `_refresh_datasets(force)`: staleness gate, then known-services loop,
then root-catalog sweep, then commit `all_datasets`/`all_services` and
set `last_refresh`.  Returns the new state and the trace of URLs
requested (empty when gated). -/
def refreshDatasets (remote : Remote) (st : GISState) (now : Nat)
    (force : Bool) : GISState × List String :=
  if !force && staleGate st now then (st, [])
  else
    let ws0 : WorkingSet := { datasets := [], services := [], trace := [] }
    let ws1 := knownPhase remote st.knownServices ws0
    let ws2 := catalogPhase remote (st.knownServices.map Prod.fst) ws1
    ({ st with
        cachedDatasets := ws2.datasets
        cachedServices := ws2.services
        lastRefresh := some now },
      ws2.trace)

/-- Boolean substring test on lists (Python `needle in haystack` for
strings, applied to the char lists). -/
def containsSub {α : Type} [BEq α] (needle : List α) : List α → Bool
  | [] => needle.isEmpty
  | a :: rest => needle.isPrefixOf (a :: rest) || containsSub needle rest

/-- Python `needle in haystack` on strings. -/
def strContains (haystack needle : String) : Bool :=
  containsSub needle.toList haystack.toList

/-- `" ".join([name, title, description, " ".join(tags)])` from
`_search_datasets`. -/
def searchableText (r : DatasetRecord) : String :=
  String.intercalate " "
    [r.name, r.title, r.description, String.intercalate " " r.tags]

/-- The match predicate of `_search_datasets`: the text check is skipped
for a falsy (empty) query, the category check for a falsy (absent or
empty) category. -/
def datasetMatches (query : String) (category : Option String)
    (r : DatasetRecord) : Bool :=
  (if query == "" then true
    else strContains (strLower (searchableText r)) (strLower query))
  && (match category with
      | none => true
      | some c =>
        if c == "" then true
        else (r.categories.map strLower).contains (strLower c))

/-- The accumulation loop of `_search_datasets`: append each match, then
break as soon as `len(results) >= limit` — the length test runs AFTER
the append. -/
def searchLoop (query : String) (category : Option String) (limit : Nat) :
    List (String × DatasetRecord) → List DatasetRecord → List DatasetRecord
  | [], acc => acc
  | p :: rest, acc =>
    if datasetMatches query category p.2 then
      let acc2 := acc ++ [p.2]
      if limit ≤ acc2.length then acc2
      else searchLoop query category limit rest acc2
    else searchLoop query category limit rest acc

/-- `_search_datasets(query, category, limit)` over the cached dataset
map (iteration order = insertion order of the association list). -/
def searchDatasets (ds : List (String × DatasetRecord)) (query : String)
    (category : Option String) (limit : Nat) : List DatasetRecord :=
  searchLoop query category limit ds []

/-- The name/title fallback predicate of `_get_dataset_info`. -/
def nameTitleMatches (dataset_id : String) (r : DatasetRecord) : Bool :=
  strLower r.name == strLower dataset_id
    || strLower r.title == strLower dataset_id

/-- `_get_dataset_info(dataset_id)` over the cached dataset map: exact
key lookup first, then the first record whose name or title matches
case-insensitively, else the `ValueError` (modelled as `none`). -/
def getDatasetInfo (ds : List (String × DatasetRecord))
    (dataset_id : String) : Option DatasetRecord :=
  match dlookup dataset_id ds with
  | some r => some r
  | none =>
    match ds.find? (fun p => nameTitleMatches dataset_id p.2) with
    | some p => some p.2
    | none => none

/-- The envelope geometry dict of `_spatial_query_by_coordinates`. -/
structure EnvelopeGeometry where
  xmin : ℚ
  ymin : ℚ
  xmax : ℚ
  ymax : ℚ
  wkid : Nat
deriving DecidableEq, Repr

/-- The request `_spatial_query_by_coordinates` sends: target URL plus
the `params` dict.  `whereClause` is the `"where"` key, `fmt` the `"f"`
key. -/
structure SpatialQueryRequest where
  url : String
  geometry : EnvelopeGeometry
  geometryType : String
  spatialRel : String
  whereClause : String
  outFields : String
  returnGeometry : String
  fmt : String
  resultRecordCount : Int
  distance : Option ℚ
  units : Option String
deriving DecidableEq, Repr

/-- The once-per-call URL normalization: append `/` when absent. -/
def normalizeServiceUrl (service_url : String) : String :=
  if service_url.endsWith "/" then service_url else service_url ++ "/"

/-- `_spatial_query_by_coordinates` as a pure request builder.  The
buffer parameters are attached only when `buffer_distance` is truthy,
i.e. present AND nonzero (`if buffer_distance:`). -/
def spatialQueryByCoordinates (service_url : String) (layer_id : Int)
    (xmin ymin xmax ymax : ℚ) (buffer_distance : Option ℚ)
    (max_records : Int) : SpatialQueryRequest :=
  { url := normalizeServiceUrl service_url ++ toString layer_id ++ "/query"
    geometry :=
      { xmin := xmin, ymin := ymin, xmax := xmax, ymax := ymax, wkid := 4326 }
    geometryType := "esriGeometryEnvelope"
    spatialRel := "esriSpatialRelIntersects"
    whereClause := "1=1"
    outFields := "*"
    returnGeometry := "true"
    fmt := "json"
    resultRecordCount := max_records
    distance :=
      match buffer_distance with
      | none => none
      | some d => if d = 0 then none else some d
    units :=
      match buffer_distance with
      | none => none
      | some d => if d = 0 then none else some "esriSRUnit_Meter" }

/-- ASCII single quote, to spell the quotes inside the confirmation
message of `_add_known_service`. -/
def squote : String := (Char.ofNat 39).toString

/-- Result of `_add_known_service`: mutated state, URLs requested by the
forced refresh, and the returned confirmation string. -/
structure AddServiceResult where
  state : GISState
  trace : List String
  message : String

/-- `_add_known_service(service_name, service_url)`: insert into
`self.known_services`, then `_refresh_datasets(force=True)`, then return
the confirmation string.  The `except` branch returning an error string
is unreachable because `_refresh_datasets` swallows every exception, so
the model is total. -/
def addKnownService (remote : Remote) (st : GISState) (now : Nat)
    (service_name service_url : String) : AddServiceResult :=
  let st1 := { st with
    knownServices := dinsert service_name service_url st.knownServices }
  let r := refreshDatasets remote st1 now true
  { state := r.1
    trace := r.2
    message := "Successfully added service " ++ squote ++ service_name
      ++ squote ++ " at " ++ service_url ++ ". Found "
      ++ toString r.1.cachedDatasets.length ++ " total datasets." }

/-! ## Association-list (Python dict) lemmas -/

theorem dlookup_dinsert_self {α : Type} (k : String) (v : α) :
    ∀ l : List (String × α), dlookup k (dinsert k v l) = some v := by
  intro l
  induction l with
  | nil => simp [dinsert, dlookup]
  | cons p rest ih =>
    by_cases h : p.1 = k
    · simp [dinsert, h, dlookup]
    · simp [dinsert, h, dlookup, ih]

theorem mem_dinsert_self {α : Type} (k : String) (v : α) :
    ∀ l : List (String × α), (k, v) ∈ dinsert k v l := by
  intro l
  induction l with
  | nil => simp [dinsert]
  | cons p rest ih =>
    by_cases h : p.1 = k
    · simp [dinsert, h]
    · simp only [dinsert, h, if_false]
      exact List.mem_cons_of_mem _ ih

theorem mem_keys_dinsert_self {α : Type} (k : String) (v : α)
    (l : List (String × α)) : k ∈ (dinsert k v l).map Prod.fst :=
  List.mem_map.mpr ⟨(k, v), mem_dinsert_self k v l, rfl⟩

theorem mem_keys_dinsert_of_mem {α : Type} (k a : String) (v : α) :
    ∀ l : List (String × α),
      a ∈ l.map Prod.fst → a ∈ (dinsert k v l).map Prod.fst := by
  intro l
  induction l with
  | nil => intro h; simp at h
  | cons p rest ih =>
    intro h
    rw [List.map_cons, List.mem_cons] at h
    by_cases hp : p.1 = k
    · simp only [dinsert, hp, if_true, List.map_cons, List.mem_cons]
      rcases h with h1 | h1
      · exact Or.inl (h1.trans hp)
      · exact Or.inr h1
    · simp only [dinsert, hp, if_false, List.map_cons, List.mem_cons]
      rcases h with h1 | h1
      · exact Or.inl h1
      · exact Or.inr (ih h1)

theorem mem_keys_dinsert_elim {α : Type} (k a : String) (v : α) :
    ∀ l : List (String × α),
      a ∈ (dinsert k v l).map Prod.fst → a = k ∨ a ∈ l.map Prod.fst := by
  intro l
  induction l with
  | nil => intro h; simpa [dinsert] using h
  | cons p rest ih =>
    intro h
    by_cases hp : p.1 = k
    · simp only [dinsert, hp, if_true] at h
      rcases List.mem_cons.mp h with h1 | h1
      · exact Or.inl h1
      · exact Or.inr (List.mem_cons.mpr (Or.inr h1))
    · simp only [dinsert, hp, if_false, List.map_cons] at h
      rcases List.mem_cons.mp h with h1 | h1
      · exact Or.inr (by simp [h1])
      · rcases ih h1 with h2 | h2
        · exact Or.inl h2
        · exact Or.inr (by simp [h2])

theorem nodup_keys_dinsert {α : Type} (k : String) (v : α) :
    ∀ l : List (String × α),
      (l.map Prod.fst).Nodup → ((dinsert k v l).map Prod.fst).Nodup := by
  intro l
  induction l with
  | nil => intro _; simp [dinsert]
  | cons p rest ih =>
    intro h
    rw [List.map_cons, List.nodup_cons] at h
    by_cases hp : p.1 = k
    · simp only [dinsert, hp, if_true, List.map_cons, List.nodup_cons]
      exact ⟨hp ▸ h.1, h.2⟩
    · simp only [dinsert, hp, if_false, List.map_cons, List.nodup_cons]
      refine ⟨fun hc => ?_, ih h.2⟩
      rcases mem_keys_dinsert_elim k p.1 v rest hc with h1 | h1
      · exact hp h1
      · exact h.1 h1

theorem mem_dinsert_elim {α : Type} (k : String) (v : α) :
    ∀ (l : List (String × α)) (p : String × α),
      p ∈ dinsert k v l → p = (k, v) ∨ p ∈ l := by
  intro l
  induction l with
  | nil => intro p h; simpa [dinsert] using h
  | cons q rest ih =>
    intro p h
    by_cases hq : q.1 = k
    · simp only [dinsert, hq, if_true] at h
      rcases List.mem_cons.mp h with h1 | h1
      · exact Or.inl h1
      · exact Or.inr (List.mem_cons.mpr (Or.inr h1))
    · simp only [dinsert, hq, if_false] at h
      rcases List.mem_cons.mp h with h1 | h1
      · exact Or.inr (by simp [h1])
      · rcases ih p h1 with h2 | h2
        · exact Or.inl h2
        · exact Or.inr (by simp [h2])

/-! ## Discovery-pass invariants -/

/-- The cache-map invariant: keys are pairwise distinct and each key
equals the `id` of its record. -/
def GoodDatasets (l : List (String × DatasetRecord)) : Prop :=
  (l.map Prod.fst).Nodup ∧ ∀ p ∈ l, p.2.id = p.1

theorem goodDatasets_nil : GoodDatasets [] := by
  constructor
  · simp
  · intro p h; simp at h

theorem goodDatasets_dinsert {l : List (String × DatasetRecord)}
    {k : String} {v : DatasetRecord} (h : GoodDatasets l) (hk : v.id = k) :
    GoodDatasets (dinsert k v l) := by
  refine ⟨nodup_keys_dinsert k v l h.1, fun p hp => ?_⟩
  rcases mem_dinsert_elim k v l p hp with h1 | h1
  · rw [h1]; exact hk
  · exact h.2 p h1

theorem foldl_preserve {β : Type} (S : WorkingSet → β → WorkingSet)
    (P : WorkingSet → Prop) (h : ∀ ws b, P ws → P (S ws b)) :
    ∀ (l : List β) (ws : WorkingSet), P ws → P (l.foldl S ws) := by
  intro l
  induction l with
  | nil => intro ws hw; simpa using hw
  | cons a rest ih =>
    intro ws hw
    rw [List.foldl_cons]
    exact ih (S ws a) (h ws a hw)

/-! ## Per-step lemmas: invariant preservation, key monotonicity,
trace monotonicity -/

theorem knownStep_good (remote : Remote) (ws : WorkingSet)
    (e : String × String) (h : GoodDatasets ws.datasets) :
    GoodDatasets (knownStep remote ws e).datasets := by
  cases hp : remote.serviceInfo e.2 with
  | none => simpa [knownStep, hp] using h
  | some info =>
    have hgood := goodDatasets_dinsert h
      (rfl : (knownDatasetInfo e.1 e.2 info).id = strLower e.1)
    simpa [knownStep, hp] using hgood

theorem knownStep_mem (remote : Remote) (ws : WorkingSet)
    (e : String × String) (a : String)
    (h : a ∈ ws.datasets.map Prod.fst) :
    a ∈ (knownStep remote ws e).datasets.map Prod.fst := by
  cases hp : remote.serviceInfo e.2 with
  | none => simpa [knownStep, hp] using h
  | some info =>
    simpa [knownStep, hp] using
      mem_keys_dinsert_of_mem (strLower e.1) a
        (knownDatasetInfo e.1 e.2 info) ws.datasets h

theorem knownStep_trace (remote : Remote) (ws : WorkingSet)
    (e : String × String) :
    (knownStep remote ws e).trace = ws.trace ++ [e.2] := by
  cases hp : remote.serviceInfo e.2 <;> simp [knownStep, hp]

theorem rootStep_good (remote : Remote) (knownNames : List String)
    (ws : WorkingSet) (svc : CatalogService)
    (h : GoodDatasets ws.datasets) :
    GoodDatasets (rootStep remote knownNames ws svc).datasets := by
  unfold rootStep
  by_cases hc : ((svc.serviceType == "FeatureServer"
      || svc.serviceType == "MapServer")
      && !(knownNames.contains svc.name)) = true
  · rw [if_pos hc]
    cases hp : remote.serviceInfo (rootServiceUrl svc.name svc.serviceType) with
    | none => simpa [hp] using h
    | some info =>
      have hgood := goodDatasets_dinsert h
        (rfl : (rootDatasetInfo svc.name svc.serviceType
          (rootServiceUrl svc.name svc.serviceType) info).id = strLower svc.name)
      simpa [hp] using hgood
  · rw [if_neg hc]
    exact h

theorem rootStep_mem (remote : Remote) (knownNames : List String)
    (ws : WorkingSet) (svc : CatalogService) (a : String)
    (h : a ∈ ws.datasets.map Prod.fst) :
    a ∈ (rootStep remote knownNames ws svc).datasets.map Prod.fst := by
  unfold rootStep
  by_cases hc : ((svc.serviceType == "FeatureServer"
      || svc.serviceType == "MapServer")
      && !(knownNames.contains svc.name)) = true
  · rw [if_pos hc]
    cases hp : remote.serviceInfo (rootServiceUrl svc.name svc.serviceType) with
    | none => simpa [hp] using h
    | some info =>
      simpa [hp] using
        mem_keys_dinsert_of_mem (strLower svc.name) a
          (rootDatasetInfo svc.name svc.serviceType
            (rootServiceUrl svc.name svc.serviceType) info) ws.datasets h
  · rw [if_neg hc]
    exact h

theorem rootStep_trace (remote : Remote) (knownNames : List String)
    (ws : WorkingSet) (svc : CatalogService) (x : String)
    (h : x ∈ ws.trace) : x ∈ (rootStep remote knownNames ws svc).trace := by
  unfold rootStep
  by_cases hc : ((svc.serviceType == "FeatureServer"
      || svc.serviceType == "MapServer")
      && !(knownNames.contains svc.name)) = true
  · rw [if_pos hc]
    cases hp : remote.serviceInfo (rootServiceUrl svc.name svc.serviceType) with
    | none => simp [hp]; exact Or.inl h
    | some info => simp [hp]; exact Or.inl h
  · rw [if_neg hc]
    exact h

theorem folderServiceStep_good (remote : Remote) (folder : String)
    (ws : WorkingSet) (svc : CatalogService)
    (h : GoodDatasets ws.datasets) :
    GoodDatasets (folderServiceStep remote folder ws svc).datasets := by
  unfold folderServiceStep
  by_cases hc : (svc.serviceType == "FeatureServer"
      || svc.serviceType == "MapServer") = true
  · rw [if_pos hc]
    cases hp : remote.serviceInfo
        (folderServiceUrl folder svc.name svc.serviceType) with
    | none => simpa [hp] using h
    | some info =>
      have hgood := goodDatasets_dinsert h
        (rfl : (folderDatasetInfo folder svc.name svc.serviceType
            (folderServiceUrl folder svc.name svc.serviceType) info).id
          = slashToUnderscore (strLower (folder ++ "/" ++ svc.name)))
      simpa [hp] using hgood
  · rw [if_neg hc]
    exact h

theorem folderServiceStep_mem (remote : Remote) (folder : String)
    (ws : WorkingSet) (svc : CatalogService) (a : String)
    (h : a ∈ ws.datasets.map Prod.fst) :
    a ∈ (folderServiceStep remote folder ws svc).datasets.map Prod.fst := by
  unfold folderServiceStep
  by_cases hc : (svc.serviceType == "FeatureServer"
      || svc.serviceType == "MapServer") = true
  · rw [if_pos hc]
    cases hp : remote.serviceInfo
        (folderServiceUrl folder svc.name svc.serviceType) with
    | none => simpa [hp] using h
    | some info =>
      simpa [hp] using
        mem_keys_dinsert_of_mem
          (slashToUnderscore (strLower (folder ++ "/" ++ svc.name))) a
          (folderDatasetInfo folder svc.name svc.serviceType
            (folderServiceUrl folder svc.name svc.serviceType) info)
          ws.datasets h
  · rw [if_neg hc]
    exact h

theorem folderServiceStep_trace (remote : Remote) (folder : String)
    (ws : WorkingSet) (svc : CatalogService) (x : String)
    (h : x ∈ ws.trace) :
    x ∈ (folderServiceStep remote folder ws svc).trace := by
  unfold folderServiceStep
  by_cases hc : (svc.serviceType == "FeatureServer"
      || svc.serviceType == "MapServer") = true
  · rw [if_pos hc]
    cases hp : remote.serviceInfo
        (folderServiceUrl folder svc.name svc.serviceType) with
    | none => simp [hp]; exact Or.inl h
    | some info => simp [hp]; exact Or.inl h
  · rw [if_neg hc]
    exact h

theorem folderStep_good (remote : Remote) (ws : WorkingSet)
    (folder : String) (h : GoodDatasets ws.datasets) :
    GoodDatasets (folderStep remote ws folder).datasets := by
  cases hp : remote.folderCatalog folder with
  | ok svcs =>
    have hbase : GoodDatasets
        ({ ws with trace := ws.trace
            ++ [apiBase ++ "/" ++ folder ++ "?f=json"] } : WorkingSet).datasets := h
    have := foldl_preserve (folderServiceStep remote folder)
      (fun w => GoodDatasets w.datasets)
      (fun w b hw => folderServiceStep_good remote folder w b hw)
      svcs _ hbase
    simpa [folderStep, hp] using this
  | httpError => simpa [folderStep, hp] using h
  | thrown => simpa [folderStep, hp] using h

theorem folderStep_mem (remote : Remote) (ws : WorkingSet)
    (folder : String) (a : String)
    (h : a ∈ ws.datasets.map Prod.fst) :
    a ∈ (folderStep remote ws folder).datasets.map Prod.fst := by
  cases hp : remote.folderCatalog folder with
  | ok svcs =>
    have hbase : a ∈
        ({ ws with trace := ws.trace
            ++ [apiBase ++ "/" ++ folder ++ "?f=json"] } : WorkingSet).datasets.map
          Prod.fst := h
    have := foldl_preserve (folderServiceStep remote folder)
      (fun w => a ∈ w.datasets.map Prod.fst)
      (fun w b hw => folderServiceStep_mem remote folder w b a hw)
      svcs _ hbase
    simpa [folderStep, hp] using this
  | httpError => simpa [folderStep, hp] using h
  | thrown => simpa [folderStep, hp] using h

theorem folderStep_trace (remote : Remote) (ws : WorkingSet)
    (folder : String) (x : String) (h : x ∈ ws.trace) :
    x ∈ (folderStep remote ws folder).trace := by
  cases hp : remote.folderCatalog folder with
  | ok svcs =>
    have hbase : x ∈
        ({ ws with trace := ws.trace
            ++ [apiBase ++ "/" ++ folder ++ "?f=json"] } : WorkingSet).trace :=
      List.mem_append_left _ h
    have := foldl_preserve (folderServiceStep remote folder)
      (fun w => x ∈ w.trace)
      (fun w b hw => folderServiceStep_trace remote folder w b x hw)
      svcs _ hbase
    simpa [folderStep, hp] using this
  | httpError =>
    simp [folderStep, hp]
    exact Or.inl h
  | thrown =>
    simp [folderStep, hp]
    exact Or.inl h

/-! ## Phase-level lemmas -/

theorem knownPhase_good (remote : Remote) (entries : List (String × String))
    (ws : WorkingSet) (h : GoodDatasets ws.datasets) :
    GoodDatasets (knownPhase remote entries ws).datasets :=
  foldl_preserve (knownStep remote) (fun w => GoodDatasets w.datasets)
    (fun w b hw => knownStep_good remote w b hw) entries ws h

theorem catalogPhase_good (remote : Remote) (knownNames : List String)
    (ws : WorkingSet) (h : GoodDatasets ws.datasets) :
    GoodDatasets (catalogPhase remote knownNames ws).datasets := by
  unfold catalogPhase
  cases hc : remote.catalog with
  | ok cd =>
    have h1 : GoodDatasets
        ({ ws with trace := ws.trace ++ [apiBase ++ "?f=json"] } : WorkingSet).datasets := h
    have h2 := foldl_preserve (rootStep remote knownNames)
      (fun w => GoodDatasets w.datasets)
      (fun w b hw => rootStep_good remote knownNames w b hw) cd.services _ h1
    exact foldl_preserve (folderStep remote)
      (fun w => GoodDatasets w.datasets)
      (fun w b hw => folderStep_good remote w b hw) cd.folders _ h2
  | httpError => exact h
  | thrown => exact h

theorem catalogPhase_mem (remote : Remote) (knownNames : List String)
    (ws : WorkingSet) (a : String) (h : a ∈ ws.datasets.map Prod.fst) :
    a ∈ (catalogPhase remote knownNames ws).datasets.map Prod.fst := by
  unfold catalogPhase
  cases hc : remote.catalog with
  | ok cd =>
    have h1 : a ∈
        ({ ws with trace := ws.trace ++ [apiBase ++ "?f=json"] } : WorkingSet).datasets.map
          Prod.fst := h
    have h2 := foldl_preserve (rootStep remote knownNames)
      (fun w => a ∈ w.datasets.map Prod.fst)
      (fun w b hw => rootStep_mem remote knownNames w b a hw) cd.services _ h1
    exact foldl_preserve (folderStep remote)
      (fun w => a ∈ w.datasets.map Prod.fst)
      (fun w b hw => folderStep_mem remote w b a hw) cd.folders _ h2
  | httpError => exact h
  | thrown => exact h

theorem catalogPhase_trace (remote : Remote) (knownNames : List String)
    (ws : WorkingSet) (x : String) (h : x ∈ ws.trace) :
    x ∈ (catalogPhase remote knownNames ws).trace := by
  unfold catalogPhase
  cases hc : remote.catalog with
  | ok cd =>
    have h1 : x ∈
        ({ ws with trace := ws.trace ++ [apiBase ++ "?f=json"] } : WorkingSet).trace :=
      List.mem_append_left _ h
    have h2 := foldl_preserve (rootStep remote knownNames)
      (fun w => x ∈ w.trace)
      (fun w b hw => rootStep_trace remote knownNames w b x hw) cd.services _ h1
    exact foldl_preserve (folderStep remote)
      (fun w => x ∈ w.trace)
      (fun w b hw => folderStep_trace remote w b x hw) cd.folders _ h2
  | httpError => exact List.mem_append_left _ h
  | thrown => exact List.mem_append_left _ h

theorem knownPhase_mem_of_probe (remote : Remote) :
    ∀ (entries : List (String × String)) (ws : WorkingSet)
      (n u : String) (i : ServiceInfo),
      (n, u) ∈ entries → remote.serviceInfo u = some i →
      strLower n ∈ (knownPhase remote entries ws).datasets.map Prod.fst := by
  intro entries
  induction entries with
  | nil => intro ws n u i hmem _; simp at hmem
  | cons e rest ih =>
    intro ws n u i hmem hp
    rw [knownPhase, List.foldl_cons]
    rcases List.mem_cons.mp hmem with he | ht
    · have hkey : strLower n ∈ (knownStep remote ws e).datasets.map Prod.fst := by
        rw [← he]
        have hp2 : remote.serviceInfo (n, u).2 = some i := hp
        simp only [knownStep, hp2]
        exact mem_keys_dinsert_self (strLower n) (knownDatasetInfo n u i) ws.datasets
      exact foldl_preserve (knownStep remote)
        (fun w => strLower n ∈ w.datasets.map Prod.fst)
        (fun w b hw => knownStep_mem remote w b (strLower n) hw) rest _ hkey
    · exact ih (knownStep remote ws e) n u i ht hp

theorem knownPhase_trace_of_mem (remote : Remote) :
    ∀ (entries : List (String × String)) (ws : WorkingSet) (n u : String),
      (n, u) ∈ entries → u ∈ (knownPhase remote entries ws).trace := by
  intro entries
  induction entries with
  | nil => intro ws n u hmem; simp at hmem
  | cons e rest ih =>
    intro ws n u hmem
    rw [knownPhase, List.foldl_cons]
    rcases List.mem_cons.mp hmem with he | ht
    · have hkey : u ∈ (knownStep remote ws e).trace := by
        rw [knownStep_trace, ← he]
        exact List.mem_append_right _ (List.mem_singleton.mpr rfl)
      exact foldl_preserve (knownStep remote) (fun w => u ∈ w.trace)
        (fun w b hw => by
          show u ∈ (knownStep remote w b).trace
          rw [knownStep_trace]
          exact List.mem_append_left _ hw)
        rest _ hkey
    · exact ih (knownStep remote ws e) n u ht

theorem rootFold_mem_of_probe (remote : Remote) (knownNames : List String) :
    ∀ (svcs : List CatalogService) (ws : WorkingSet)
      (svc : CatalogService) (i : ServiceInfo),
      svc ∈ svcs →
      (svc.serviceType == "FeatureServer" || svc.serviceType == "MapServer") = true →
      knownNames.contains svc.name = false →
      remote.serviceInfo (rootServiceUrl svc.name svc.serviceType) = some i →
      strLower svc.name ∈
        ((svcs.foldl (rootStep remote knownNames) ws).datasets.map Prod.fst) := by
  intro svcs
  induction svcs with
  | nil => intro ws svc i hmem _ _ _; simp at hmem
  | cons s rest ih =>
    intro ws svc i hmem ht hk hp
    rw [List.foldl_cons]
    rcases List.mem_cons.mp hmem with he | hrest
    · have hkey : strLower svc.name ∈
          (rootStep remote knownNames ws s).datasets.map Prod.fst := by
        rw [← he]
        unfold rootStep
        rw [if_pos (by rw [ht, hk]; rfl)]
        simp only [hp]
        exact mem_keys_dinsert_self (strLower svc.name)
          (rootDatasetInfo svc.name svc.serviceType
            (rootServiceUrl svc.name svc.serviceType) i) ws.datasets
      exact foldl_preserve (rootStep remote knownNames)
        (fun w => strLower svc.name ∈ w.datasets.map Prod.fst)
        (fun w b hw => rootStep_mem remote knownNames w b (strLower svc.name) hw)
        rest _ hkey
    · exact ih (rootStep remote knownNames ws s) svc i hrest ht hk hp

theorem folderSvcFold_mem_of_probe (remote : Remote) (folder : String) :
    ∀ (svcs : List CatalogService) (ws : WorkingSet)
      (svc : CatalogService) (i : ServiceInfo),
      svc ∈ svcs →
      (svc.serviceType == "FeatureServer" || svc.serviceType == "MapServer") = true →
      remote.serviceInfo (folderServiceUrl folder svc.name svc.serviceType) = some i →
      slashToUnderscore (strLower (folder ++ "/" ++ svc.name)) ∈
        ((svcs.foldl (folderServiceStep remote folder) ws).datasets.map Prod.fst) := by
  intro svcs
  induction svcs with
  | nil => intro ws svc i hmem _ _; simp at hmem
  | cons s rest ih =>
    intro ws svc i hmem ht hp
    rw [List.foldl_cons]
    rcases List.mem_cons.mp hmem with he | hrest
    · have hkey : slashToUnderscore (strLower (folder ++ "/" ++ svc.name)) ∈
          (folderServiceStep remote folder ws s).datasets.map Prod.fst := by
        rw [← he]
        unfold folderServiceStep
        rw [if_pos ht]
        simp only [hp]
        exact mem_keys_dinsert_self _
          (folderDatasetInfo folder svc.name svc.serviceType
            (folderServiceUrl folder svc.name svc.serviceType) i) ws.datasets
      exact foldl_preserve (folderServiceStep remote folder)
        (fun w => slashToUnderscore (strLower (folder ++ "/" ++ svc.name))
          ∈ w.datasets.map Prod.fst)
        (fun w b hw => folderServiceStep_mem remote folder w b _ hw)
        rest _ hkey
    · exact ih (folderServiceStep remote folder ws s) svc i hrest ht hp

theorem folderFold_mem_of_probe (remote : Remote) :
    ∀ (folders : List String) (ws : WorkingSet) (f : String)
      (svcs : List CatalogService) (svc : CatalogService) (i : ServiceInfo),
      f ∈ folders → remote.folderCatalog f = .ok svcs → svc ∈ svcs →
      (svc.serviceType == "FeatureServer" || svc.serviceType == "MapServer") = true →
      remote.serviceInfo (folderServiceUrl f svc.name svc.serviceType) = some i →
      slashToUnderscore (strLower (f ++ "/" ++ svc.name)) ∈
        ((folders.foldl (folderStep remote) ws).datasets.map Prod.fst) := by
  intro folders
  induction folders with
  | nil => intro ws f svcs svc i hmem _ _ _ _; simp at hmem
  | cons g rest ih =>
    intro ws f svcs svc i hmem hcat hsv ht hp
    rw [List.foldl_cons]
    rcases List.mem_cons.mp hmem with he | hrest
    · have hkey : slashToUnderscore (strLower (f ++ "/" ++ svc.name)) ∈
          (folderStep remote ws g).datasets.map Prod.fst := by
        rw [← he]
        unfold folderStep
        rw [hcat]
        exact folderSvcFold_mem_of_probe remote f svcs _ svc i hsv ht hp
      exact foldl_preserve (folderStep remote)
        (fun w => slashToUnderscore (strLower (f ++ "/" ++ svc.name))
          ∈ w.datasets.map Prod.fst)
        (fun w b hw => folderStep_mem remote w b _ hw) rest _ hkey
    · exact ih (folderStep remote ws g) f svcs svc i hrest hcat hsv ht hp

/-! ## Unfolding the forced refresh -/

/-- The working set a non-gated `_refresh_datasets` pass builds. -/
def forcedWS (remote : Remote) (st : GISState) : WorkingSet :=
  catalogPhase remote (st.knownServices.map Prod.fst)
    (knownPhase remote st.knownServices
      { datasets := [], services := [], trace := [] })

theorem refreshDatasets_force (remote : Remote) (st : GISState) (now : Nat) :
    refreshDatasets remote st now true =
      ({ st with
          cachedDatasets := (forcedWS remote st).datasets
          cachedServices := (forcedWS remote st).services
          lastRefresh := some now },
        (forcedWS remote st).trace) := rfl

theorem refresh_gated (remote : Remote) (st : GISState) (now t : Nat)
    (h1 : st.lastRefresh = some t) (h2 : t ≠ 0) (h3 : now - t < 900) :
    refreshDatasets remote st now false = (st, []) := by
  have hg : staleGate st now = true := by
    unfold staleGate
    rw [h1]
    simp [h2, h3]
  unfold refreshDatasets
  rw [hg]
  rfl

theorem refresh_not_gated (remote : Remote) (st : GISState) (now : Nat)
    (h : staleGate st now = false) :
    refreshDatasets remote st now false =
      ({ st with
          cachedDatasets := (forcedWS remote st).datasets
          cachedServices := (forcedWS remote st).services
          lastRefresh := some now },
        (forcedWS remote st).trace) := by
  unfold refreshDatasets
  rw [h]
  rfl

/-! ## Search-loop characterization -/

theorem searchLoop_spec (query : String) (category : Option String)
    (limit : Nat) :
    ∀ (l : List (String × DatasetRecord)) (acc : List DatasetRecord),
      acc.length < limit →
      searchLoop query category limit l acc =
        acc ++ (((l.filter (fun p => datasetMatches query category p.2)).map
          Prod.snd).take (limit - acc.length)) := by
  intro l
  induction l with
  | nil => intro acc _; simp [searchLoop]
  | cons p rest ih =>
    intro acc hlen
    have hlen2 : (acc ++ [p.2]).length = acc.length + 1 := by simp
    by_cases hm : datasetMatches query category p.2 = true
    · by_cases hstop : limit ≤ (acc ++ [p.2]).length
      · have h1 : limit - acc.length = 1 := by omega
        rw [searchLoop, if_pos hm]
        simp only [if_pos hstop]
        rw [h1]
        simp [List.filter_cons, hm]
      · have hlt : (acc ++ [p.2]).length < limit := by omega
        rw [searchLoop, if_pos hm]
        simp only [if_neg hstop]
        rw [ih (acc ++ [p.2]) hlt]
        have harith : limit - acc.length = (limit - (acc ++ [p.2]).length) + 1 := by
          rw [hlen2]; omega
        rw [harith]
        simp [List.filter_cons, hm, List.take_succ_cons]
    · rw [searchLoop, if_neg hm]
      rw [ih acc hlen]
      simp [List.filter_cons, hm]

/-! ## find? decomposition -/

theorem find?_split {α : Type} (f : α → Bool) :
    ∀ (l : List α) (a : α), l.find? f = some a →
      ∃ pre post, l = pre ++ a :: post ∧ f a = true ∧
        ∀ q ∈ pre, f q = false := by
  intro l
  induction l with
  | nil => intro a h; simp at h
  | cons x rest ih =>
    intro a h
    by_cases hx : f x = true
    · rw [List.find?_cons_of_pos _ hx] at h
      have hxa : x = a := by injection h
      refine ⟨[], rest, by simp [hxa], hxa ▸ hx, ?_⟩
      intro q hq
      simp at hq
    · rw [List.find?_cons_of_neg _ (by simpa using hx)] at h
      obtain ⟨pre, post, h1, h2, h3⟩ := ih a h
      refine ⟨x :: pre, post, by simp [h1], h2, ?_⟩
      intro q hq
      rcases List.mem_cons.mp hq with hq1 | hq1
      · rw [hq1]
        exact Bool.eq_false_iff.mpr hx
      · exact h3 q hq1

/-! ## Concrete fixtures -/

/-- The seeded Leases endpoint from `__init__`. -/
def leasesUrl : String := apiBase ++ "/Leases/FeatureServer"

/-- A bare descriptor: no serviceDescription, no description, no layers. -/
def wInfo : ServiceInfo :=
  { serviceDescription := none, description := none, layers := [] }

/-- A remote on which everything fails: every service probe fails, the
root catalog probe raises, every folder probe raises. -/
def crashRemote : Remote :=
  { serviceInfo := fun _ => none
    catalog := .thrown
    folderCatalog := fun _ => .thrown }

def oldRecord : DatasetRecord := knownDatasetInfo "Old" "http://old" wInfo

/-- A state holding one previously discovered dataset, committed at
time 100, with an empty known-service registry. -/
def priorState : GISState :=
  { knownServices := []
    cachedDatasets := [("old", oldRecord)]
    cachedServices := []
    lastRefresh := some 100 }

/-- The process-start state: everything empty, no refresh timestamp. -/
def freshState : GISState :=
  { knownServices := [], cachedDatasets := [], cachedServices := []
    lastRefresh := none }

/-! ## Claims -/

/-- C1: if `discover(force=false)` runs while a prior successful pass
finished less than 900 seconds ago (`last_refresh` set, hence positive),
the call returns without any network probe (empty trace) and the whole
state — `known_services`, `cached_datasets`, `cached_services`,
`last_refresh` — is returned identical; consequently a second
force=false call within 900 seconds of a committed pass does no network
work and returns the identical state. -/
theorem staleness_gate_skips_discovery :
    (∀ (remote : Remote) (st : GISState) (now t : Nat),
        st.lastRefresh = some t → 0 < t → now - t < 900 →
        refreshDatasets remote st now false = (st, []))
  ∧ (∀ (remote remote2 : Remote) (st : GISState) (now now2 : Nat),
        staleGate st now = false → 0 < now → now2 - now < 900 →
        refreshDatasets remote2 (refreshDatasets remote st now false).1 now2 false
          = ((refreshDatasets remote st now false).1, [])) := by
  constructor
  · intro remote st now t h1 h2 h3
    exact refresh_gated remote st now t h1 (Nat.pos_iff_ne_zero.mp h2) h3
  · intro remote remote2 st now now2 hg hnow h2
    have hcommit : (refreshDatasets remote st now false).1.lastRefresh
        = some now := by
      rw [refresh_not_gated remote st now hg]
    exact refresh_gated remote2 _ now2 now hcommit
      (Nat.pos_iff_ne_zero.mp hnow) h2

/-- C1 witness: a concrete gated call returns the state unchanged with
an empty probe trace, and a call 5 seconds after a committed pass is
gated. -/
theorem staleness_gate_skips_discovery_witness :
    refreshDatasets crashRemote priorState 150 false = (priorState, [])
  ∧ refreshDatasets crashRemote
      (refreshDatasets crashRemote freshState 5 false).1 10 false
      = ((refreshDatasets crashRemote freshState 5 false).1, []) :=
  ⟨staleness_gate_skips_discovery.1 crashRemote priorState 150 100 rfl
      (by decide) (by decide),
   staleness_gate_skips_discovery.2 crashRemote crashRemote freshState 5 10
      (by decide) (by decide) (by decide)⟩

/-- C2 (amended): when the root catalog probe raises, the exception is
caught by the catalog block's own handler, so the pass does NOT abort:
root/folder discovery is skipped, but the cache is still replaced by the
working set built from the known-service loop alone, and
`last_refresh` is set.  The previous `cached_datasets`/`cached_services`
are NOT retained. -/
theorem catalog_throw_commits_known_working_set (remote : Remote)
    (st : GISState) (now : Nat) (h : remote.catalog = .thrown) :
    (refreshDatasets remote st now true).1.cachedDatasets =
        (knownPhase remote st.knownServices
          { datasets := [], services := [], trace := [] }).datasets
      ∧ (refreshDatasets remote st now true).1.cachedServices =
        (knownPhase remote st.knownServices
          { datasets := [], services := [], trace := [] }).services
      ∧ (refreshDatasets remote st now true).1.lastRefresh = some now := by
  rw [refreshDatasets_force]
  unfold forcedWS catalogPhase
  rw [h]
  exact ⟨rfl, rfl, rfl⟩

/-- C2 counterexample: with a nonempty prior cache, an empty registry
and a root catalog probe that raises, the pass replaces the cached
datasets with the empty working set instead of retaining the prior
cache — refuting "the previous CacheState.datasets ... are retained
unchanged". -/
theorem catalog_throw_replaces_cache_cex :
    (refreshDatasets crashRemote priorState 1001 false).1.cachedDatasets = []
      ∧ priorState.cachedDatasets = [("old", oldRecord)]
      ∧ ([] : List (String × DatasetRecord)) ≠ [("old", oldRecord)] := by
  refine ⟨by decide, by decide, by decide⟩

/-- C2 witness for the amended claim, at a concrete failing remote. -/
theorem catalog_throw_commits_known_working_set_witness :
    (refreshDatasets crashRemote priorState 1001 true).1.cachedDatasets =
        (knownPhase crashRemote priorState.knownServices
          { datasets := [], services := [], trace := [] }).datasets
      ∧ (refreshDatasets crashRemote priorState 1001 true).1.cachedServices =
        (knownPhase crashRemote priorState.knownServices
          { datasets := [], services := [], trace := [] }).services
      ∧ (refreshDatasets crashRemote priorState 1001 true).1.lastRefresh
        = some 1001 :=
  catalog_throw_commits_known_working_set crashRemote priorState 1001 rfl

/-- Fixture for C3: a known service `"AB"` and a root catalog service
`"ab"` that both normalize to id `"ab"`. -/
def abUrl : String := "http://known/AB"

def infoRootAB : ServiceInfo :=
  { serviceDescription := some "Root ab", description := some "root-desc"
    layers := ["L0"] }

def collideRemote : Remote :=
  { serviceInfo := fun u =>
      if u = abUrl then some wInfo
      else if u = rootServiceUrl "ab" "FeatureServer" then some infoRootAB
      else none
    catalog := .ok
      { services := [{ name := "ab", serviceType := "FeatureServer" }]
        folders := [] }
    folderCatalog := fun _ => .thrown }

def collideState : GISState :=
  { knownServices := [("AB", abUrl)], cachedDatasets := []
    cachedServices := [], lastRefresh := none }

def collideRootRecord : DatasetRecord :=
  rootDatasetInfo "ab" "FeatureServer" (rootServiceUrl "ab" "FeatureServer")
    infoRootAB

/-- C3: after every discovery pass the cached dataset keys are pairwise
distinct and each key equals the `id` of its record; and on an id
collision the later-discovered record silently overwrites the earlier
one (concretely: known `"AB"` is overwritten by root service `"ab"`,
both normalizing to id `"ab"`). -/
theorem cache_keys_distinct_eq_id_last_wins :
    (∀ (remote : Remote) (st : GISState) (now : Nat),
        ((refreshDatasets remote st now true).1.cachedDatasets.map Prod.fst).Nodup
      ∧ ((refreshDatasets remote st now true).1.cachedDatasets.all
          (fun p => p.2.id == p.1)) = true)
  ∧ (refreshDatasets collideRemote collideState 7 true).1.cachedDatasets
      = [("ab", collideRootRecord)]
  ∧ knownDatasetInfo "AB" abUrl wInfo ≠ collideRootRecord := by
  refine ⟨?_, by decide, by decide⟩
  intro remote st now
  have hgood : GoodDatasets
      (refreshDatasets remote st now true).1.cachedDatasets := by
    rw [refreshDatasets_force]
    exact catalogPhase_good remote _ _
      (knownPhase_good remote _ _ goodDatasets_nil)
  refine ⟨hgood.1, List.all_eq_true.mpr ?_⟩
  intro p hp
  exact beq_iff_eq.mpr (hgood.2 p hp)

/-- Fixture for C4: one dataset that matches the empty query. -/
def cexRecord : DatasetRecord := knownDatasetInfo "A" "http://a" wInfo

def cexDatasets : List (String × DatasetRecord) := [("a", cexRecord)]

/-- C4 (amended): for every limit ≥ 1, `searchDatasets` equals the
filter of the cache (in iteration order) truncated at `limit`; hence it
returns at most `limit` entries and every returned entry satisfies the
text and category predicates.  (For limit = 0 the source appends the
first match before testing the length, see the counterexample.) -/
theorem search_respects_limit_and_predicates
    (ds : List (String × DatasetRecord)) (query : String)
    (category : Option String) (limit : Nat) (h : 1 ≤ limit) :
    searchDatasets ds query category limit =
        ((ds.filter (fun p => datasetMatches query category p.2)).map
          Prod.snd).take limit
      ∧ (searchDatasets ds query category limit).length ≤ limit
      ∧ ∀ r ∈ searchDatasets ds query category limit,
          datasetMatches query category r = true := by
  have hspec := searchLoop_spec query category limit ds [] (by simpa using h)
  have hmain : searchDatasets ds query category limit =
      ((ds.filter (fun p => datasetMatches query category p.2)).map
        Prod.snd).take limit := by
    rw [searchDatasets, hspec]
    simp
  refine ⟨hmain, ?_, ?_⟩
  · rw [hmain, List.length_take]
    exact min_le_left _ _
  · intro r hr
    rw [hmain] at hr
    have hr2 := List.take_subset _ _ hr
    obtain ⟨p, hp, hpr⟩ := List.mem_map.mp hr2
    have hpf := List.mem_filter.mp hp
    rw [← hpr]
    exact hpf.2

/-- C4 counterexample: at limit = 0 the loop appends the first matching
record and only then tests `len(results) >= limit`, so one entry is
returned — more than the limit. -/
theorem search_limit_zero_cex :
    (searchDatasets cexDatasets "" none 0).length = 1
      ∧ ¬ ((searchDatasets cexDatasets "" none 0).length ≤ 0) := by
  refine ⟨by decide, by decide⟩

/-- C4 witness: the amended claim at a concrete cache and limit 1. -/
theorem search_respects_limit_and_predicates_witness :
    searchDatasets cexDatasets "" none 1 =
        ((cexDatasets.filter (fun p => datasetMatches "" none p.2)).map
          Prod.snd).take 1
      ∧ (searchDatasets cexDatasets "" none 1).length ≤ 1 :=
  ⟨(search_respects_limit_and_predicates cexDatasets "" none 1 (by decide)).1,
   (search_respects_limit_and_predicates cexDatasets "" none 1 (by decide)).2.1⟩

/-- C5 (amended): when the remote descriptor has no `description`, the
default depends on the discovery branch — known services get
`"{name} feature service from eThekwini municipality"`, while root and
folder services get `"{name} service from eThekwini municipality"`,
where for folder services `{name}` is the bare unqualified service
name (the folder name does not appear in the default). -/
theorem default_description_by_branch
    (service_name service_type service_url folder : String)
    (info : ServiceInfo) (h : info.description = none) :
    (knownDatasetInfo service_name service_url info).description
        = service_name ++ " feature service from eThekwini municipality"
      ∧ (rootDatasetInfo service_name service_type service_url info).description
        = service_name ++ " service from eThekwini municipality"
      ∧ (folderDatasetInfo folder service_name service_type service_url
          info).description
        = service_name ++ " service from eThekwini municipality" := by
  refine ⟨?_, ?_, ?_⟩ <;>
    simp [knownDatasetInfo, rootDatasetInfo, folderDatasetInfo, h]

/-- Fixture for C5: a registry seeded with Leases whose probe returns a
descriptor with no description. -/
def twoLayerInfo : ServiceInfo :=
  { serviceDescription := none, description := none, layers := ["0", "1"] }

def noDescState : GISState :=
  { knownServices := [("Leases", leasesUrl)], cachedDatasets := []
    cachedServices := [], lastRefresh := none }

def noDescRemote : Remote :=
  { serviceInfo := fun u => if u = leasesUrl then some twoLayerInfo else none
    catalog := .httpError
    folderCatalog := fun _ => .httpError }

/-- C5 counterexample: a discovered known service with no remote
description gets `"Leases feature service from eThekwini
municipality"`, not the claimed `"Leases service from eThekwini
municipality"`. -/
theorem known_service_default_description_cex :
    (refreshDatasets noDescRemote noDescState 5 true).1.cachedDatasets
        = [("leases", knownDatasetInfo "Leases" leasesUrl twoLayerInfo)]
      ∧ (knownDatasetInfo "Leases" leasesUrl twoLayerInfo).description
        = "Leases feature service from eThekwini municipality"
      ∧ (knownDatasetInfo "Leases" leasesUrl twoLayerInfo).description
        ≠ "Leases service from eThekwini municipality" := by
  refine ⟨by decide, by decide, by decide⟩

/-- C5 witness: the amended defaults at a concrete descriptor. -/
theorem default_description_by_branch_witness :
    (knownDatasetInfo "Leases" leasesUrl wInfo).description
        = "Leases" ++ " feature service from eThekwini municipality"
      ∧ (rootDatasetInfo "Leases" "MapServer" leasesUrl wInfo).description
        = "Leases" ++ " service from eThekwini municipality"
      ∧ (folderDatasetInfo "Utilities" "Leases" "MapServer" leasesUrl
          wInfo).description
        = "Leases" ++ " service from eThekwini municipality" :=
  default_description_by_branch "Leases" "MapServer" leasesUrl "Utilities"
    wInfo rfl

/-- Fixture for C6: a known service registered under a slash-qualified
name, as `registerKnownService` permits. -/
def slashUrl : String := "http://slash"

def slashState : GISState :=
  { knownServices := [("Leases/Active", slashUrl)], cachedDatasets := []
    cachedServices := [], lastRefresh := none }

def slashRemote : Remote :=
  { serviceInfo := fun u => if u = slashUrl then some wInfo else none
    catalog := .httpError
    folderCatalog := fun _ => .httpError }

/-- C6 (amended): only folder-discovered services get the `/` → `_`
replacement in their id (applied to the lowercased folder-qualified
name); known-registry and root services get the plain lowercased name —
a slash in such a name is kept (see the counterexample pass). -/
theorem id_normalization_by_branch :
    (∀ folder service_name service_type service_url info,
        (folderDatasetInfo folder service_name service_type service_url
          info).id
          = slashToUnderscore (strLower (folder ++ "/" ++ service_name)))
  ∧ (∀ service_name service_url info,
        (knownDatasetInfo service_name service_url info).id
          = strLower service_name)
  ∧ (∀ service_name service_type service_url info,
        (rootDatasetInfo service_name service_type service_url info).id
          = strLower service_name)
  ∧ (refreshDatasets slashRemote slashState 2 true).1.cachedDatasets
      = [("leases/active", knownDatasetInfo "Leases/Active" slashUrl wInfo)] := by
  exact ⟨fun _ _ _ _ _ => rfl, fun _ _ _ => rfl, fun _ _ _ _ => rfl, by decide⟩

/-- C6 counterexample: a known service with raw name `"Leases/Active"`
yields id `"leases/active"`, not the claimed `"leases_active"`. -/
theorem known_service_slash_id_cex :
    (knownDatasetInfo "Leases/Active" slashUrl wInfo).id = "leases/active"
      ∧ slashToUnderscore (strLower "Leases/Active") = "leases_active"
      ∧ ((refreshDatasets slashRemote slashState 2 true).1.cachedDatasets.map
          Prod.fst) = ["leases/active"]
      ∧ "leases/active" ≠ "leases_active" := by
  refine ⟨by decide, by decide, by decide, by decide⟩

/-- C7: during one forced discovery pass, each probe is handled per
item — for ANY remote (so in particular one on which any other known
service, root service, folder, or folder service fails), every known
service whose probe succeeds, every qualifying root service whose probe
succeeds, and every qualifying folder service whose folder enumeration
and probe succeed is inserted into the committed dataset map; and the
pass always completes and commits (`last_refresh` set). -/
theorem per_item_probe_isolation (remote : Remote) (st : GISState)
    (now : Nat) :
    (∀ n u i, (n, u) ∈ st.knownServices → remote.serviceInfo u = some i →
        strLower n ∈
          ((refreshDatasets remote st now true).1.cachedDatasets.map Prod.fst))
  ∧ (∀ cd svc i, remote.catalog = .ok cd → svc ∈ cd.services →
        (svc.serviceType == "FeatureServer"
          || svc.serviceType == "MapServer") = true →
        (st.knownServices.map Prod.fst).contains svc.name = false →
        remote.serviceInfo (rootServiceUrl svc.name svc.serviceType)
          = some i →
        strLower svc.name ∈
          ((refreshDatasets remote st now true).1.cachedDatasets.map Prod.fst))
  ∧ (∀ cd f svcs svc i, remote.catalog = .ok cd → f ∈ cd.folders →
        remote.folderCatalog f = .ok svcs → svc ∈ svcs →
        (svc.serviceType == "FeatureServer"
          || svc.serviceType == "MapServer") = true →
        remote.serviceInfo (folderServiceUrl f svc.name svc.serviceType)
          = some i →
        slashToUnderscore (strLower (f ++ "/" ++ svc.name)) ∈
          ((refreshDatasets remote st now true).1.cachedDatasets.map Prod.fst))
  ∧ (refreshDatasets remote st now true).1.lastRefresh = some now := by
  refine ⟨?_, ?_, ?_, ?_⟩
  · intro n u i hmem hp
    rw [refreshDatasets_force]
    exact catalogPhase_mem remote _ _ _
      (knownPhase_mem_of_probe remote st.knownServices _ n u i hmem hp)
  · intro cd svc i hcat hsvc ht hk hp
    rw [refreshDatasets_force]
    show strLower svc.name ∈ (forcedWS remote st).datasets.map Prod.fst
    unfold forcedWS catalogPhase
    rw [hcat]
    apply foldl_preserve (folderStep remote)
      (fun w => strLower svc.name ∈ w.datasets.map Prod.fst)
      (fun w b hw => folderStep_mem remote w b _ hw)
    exact rootFold_mem_of_probe remote _ cd.services _ svc i hsvc ht hk hp
  · intro cd f svcs svc i hcat hf hfc hsvc ht hp
    rw [refreshDatasets_force]
    show slashToUnderscore (strLower (f ++ "/" ++ svc.name)) ∈
      (forcedWS remote st).datasets.map Prod.fst
    unfold forcedWS catalogPhase
    rw [hcat]
    exact folderFold_mem_of_probe remote cd.folders _ f svcs svc i
      hf hfc hsvc ht hp
  · rw [refreshDatasets_force]

/-- Fixture for C7: one failing known service next to a succeeding
known service, a succeeding root service and a succeeding folder
service. -/
def wBadUrl : String := "http://bad"

def wGoodUrl : String := "http://good"

def wRemote : Remote :=
  { serviceInfo := fun u =>
      if u = wBadUrl then none
      else if u = wGoodUrl then some wInfo
      else if u = rootServiceUrl "R" "MapServer" then some wInfo
      else if u = folderServiceUrl "F" "S" "FeatureServer" then some wInfo
      else none
    catalog := .ok
      { services := [{ name := "R", serviceType := "MapServer" }]
        folders := ["F"] }
    folderCatalog := fun f =>
      if f = "F" then .ok [{ name := "S", serviceType := "FeatureServer" }]
      else .thrown }

def wState : GISState :=
  { knownServices := [("K", wBadUrl), ("K2", wGoodUrl)]
    cachedDatasets := [], cachedServices := [], lastRefresh := none }

/-- C7 witness: with known service `"K"` failing, the succeeding known
service `"K2"`, root service `"R"` and folder service `"F/S"` are all
still discovered in the same pass. -/
theorem per_item_probe_isolation_witness :
    wRemote.serviceInfo wBadUrl = none
  ∧ strLower "K2" ∈
      ((refreshDatasets wRemote wState 3 true).1.cachedDatasets.map Prod.fst)
  ∧ strLower "R" ∈
      ((refreshDatasets wRemote wState 3 true).1.cachedDatasets.map Prod.fst)
  ∧ slashToUnderscore (strLower ("F" ++ "/" ++ "S")) ∈
      ((refreshDatasets wRemote wState 3 true).1.cachedDatasets.map Prod.fst) :=
  ⟨by decide,
   (per_item_probe_isolation wRemote wState 3).1 "K2" wGoodUrl wInfo
     (by decide) (by decide),
   (per_item_probe_isolation wRemote wState 3).2.1
     { services := [{ name := "R", serviceType := "MapServer" }]
       folders := ["F"] }
     { name := "R", serviceType := "MapServer" } wInfo rfl (by decide)
     (by decide) (by decide) (by decide),
   (per_item_probe_isolation wRemote wState 3).2.2.1
     { services := [{ name := "R", serviceType := "MapServer" }]
       folders := ["F"] }
     "F" [{ name := "S", serviceType := "FeatureServer" }]
     { name := "S", serviceType := "FeatureServer" } wInfo rfl (by decide)
     (by decide) (by decide) (by decide) (by decide)⟩

/-- C8 (amended): for every service URL, layer id, four ordinates,
optional buffer and record cap, the built request carries exactly those
four ordinates with WKID 4326, envelope geometry type, intersects
relation, `where "1=1"`, all output fields, geometry returned, and the
record cap; and whenever a NONZERO buffer distance is supplied it is
attached with meter units.  (A zero buffer is falsy in the source's
`if buffer_distance:` test and is dropped, see the counterexample.) -/
theorem bbox_query_request_shape (service_url : String) (layer_id : Int)
    (xmin ymin xmax ymax : ℚ) (buffer_distance : Option ℚ)
    (max_records : Int) :
    (spatialQueryByCoordinates service_url layer_id xmin ymin xmax ymax
        buffer_distance max_records).geometry
        = { xmin := xmin, ymin := ymin, xmax := xmax, ymax := ymax
            wkid := 4326 }
      ∧ (spatialQueryByCoordinates service_url layer_id xmin ymin xmax ymax
          buffer_distance max_records).geometryType = "esriGeometryEnvelope"
      ∧ (spatialQueryByCoordinates service_url layer_id xmin ymin xmax ymax
          buffer_distance max_records).spatialRel = "esriSpatialRelIntersects"
      ∧ (spatialQueryByCoordinates service_url layer_id xmin ymin xmax ymax
          buffer_distance max_records).whereClause = "1=1"
      ∧ (spatialQueryByCoordinates service_url layer_id xmin ymin xmax ymax
          buffer_distance max_records).outFields = "*"
      ∧ (spatialQueryByCoordinates service_url layer_id xmin ymin xmax ymax
          buffer_distance max_records).returnGeometry = "true"
      ∧ (spatialQueryByCoordinates service_url layer_id xmin ymin xmax ymax
          buffer_distance max_records).resultRecordCount = max_records
      ∧ (∀ d, buffer_distance = some d → d ≠ 0 →
          (spatialQueryByCoordinates service_url layer_id xmin ymin xmax ymax
            buffer_distance max_records).distance = some d
          ∧ (spatialQueryByCoordinates service_url layer_id xmin ymin xmax
              ymax buffer_distance max_records).units
            = some "esriSRUnit_Meter") := by
  refine ⟨rfl, rfl, rfl, rfl, rfl, rfl, rfl, ?_⟩
  intro d hd hdz
  subst hd
  constructor
  · show (if d = 0 then none else some d) = some d
    rw [if_neg hdz]
  · show (if d = 0 then none else some "esriSRUnit_Meter")
      = some "esriSRUnit_Meter"
    rw [if_neg hdz]

/-- C8 counterexample: a supplied buffer distance of 0 is falsy in
Python, so the request carries neither the distance nor the units —
refuting "when a buffer distance is supplied the request additionally
carries that distance with meter units". -/
theorem bbox_zero_buffer_cex :
    (spatialQueryByCoordinates "http://svc" 0 1 2 3 4 (some 0) 10).distance
        = none
      ∧ (spatialQueryByCoordinates "http://svc" 0 1 2 3 4 (some 0) 10).units
        = none := by
  refine ⟨by decide, by decide⟩

/-- C8 witness: the amended claim at concrete ordinates and a nonzero
buffer. -/
theorem bbox_query_request_shape_witness :
    (spatialQueryByCoordinates "http://svc" 0 1 2 3 4 (some 5) 10).geometry
        = { xmin := 1, ymin := 2, xmax := 3, ymax := 4, wkid := 4326 }
      ∧ (spatialQueryByCoordinates "http://svc" 0 1 2 3 4 (some 5)
          10).distance = some 5
      ∧ (spatialQueryByCoordinates "http://svc" 0 1 2 3 4 (some 5) 10).units
        = some "esriSRUnit_Meter" :=
  ⟨(bbox_query_request_shape "http://svc" 0 1 2 3 4 (some 5) 10).1,
   ((bbox_query_request_shape "http://svc" 0 1 2 3 4 (some 5)
       10).2.2.2.2.2.2.2 5 rfl (by decide)).1,
   ((bbox_query_request_shape "http://svc" 0 1 2 3 4 (some 5)
       10).2.2.2.2.2.2.2 5 rfl (by decide)).2⟩

/-- C9: `getDatasetById` returns the exact-key record when the id is a
cache key; otherwise it returns the first record (in cache order) whose
name or title matches the identifier case-insensitively; the not-found
error occurs exactly when there is neither a key match nor a name/title
match. -/
theorem dataset_lookup_fallback (ds : List (String × DatasetRecord))
    (dataset_id : String) :
    (∀ r, dlookup dataset_id ds = some r →
        getDatasetInfo ds dataset_id = some r)
  ∧ (getDatasetInfo ds dataset_id = none ↔
      (dlookup dataset_id ds = none
        ∧ ∀ p ∈ ds, nameTitleMatches dataset_id p.2 = false))
  ∧ (dlookup dataset_id ds = none →
      ∀ r, getDatasetInfo ds dataset_id = some r →
      ∃ pre p post, ds = pre ++ p :: post ∧ p.2 = r
        ∧ nameTitleMatches dataset_id p.2 = true
        ∧ ∀ q ∈ pre, nameTitleMatches dataset_id q.2 = false) := by
  refine ⟨?_, ?_, ?_⟩
  · intro r h
    unfold getDatasetInfo
    rw [h]
  · cases hl : dlookup dataset_id ds with
    | some r =>
      constructor
      · intro h
        unfold getDatasetInfo at h
        rw [hl] at h
        simp at h
      · rintro ⟨h1, _⟩
        simp at h1
    | none =>
      cases hf : ds.find? (fun p => nameTitleMatches dataset_id p.2) with
      | some p =>
        constructor
        · intro h
          unfold getDatasetInfo at h
          rw [hl, hf] at h
          simp at h
        · rintro ⟨_, h2⟩
          have hfp := List.find?_some hf
          have hmem := List.mem_of_find?_eq_some hf
          rw [h2 p hmem] at hfp
          simp at hfp
      | none =>
        constructor
        · intro _
          refine ⟨rfl, ?_⟩
          intro p hp
          have hnp := List.find?_eq_none.mp hf p hp
          exact Bool.eq_false_iff.mpr hnp
        · intro _
          unfold getDatasetInfo
          rw [hl, hf]
  · intro hl r hr
    unfold getDatasetInfo at hr
    rw [hl] at hr
    cases hf : ds.find? (fun p => nameTitleMatches dataset_id p.2) with
    | some p =>
      rw [hf] at hr
      have hpr : p.2 = r := by injection hr
      obtain ⟨pre, post, h1, h2, h3⟩ := find?_split _ ds p hf
      exact ⟨pre, p, post, h1, hpr, h2, h3⟩
    | none =>
      rw [hf] at hr
      simp at hr

/-- Fixture for C9: two records reachable only via the name fallback. -/
def c9rec1 : DatasetRecord := knownDatasetInfo "Alpha" "http://a1" wInfo

def c9rec2 : DatasetRecord := knownDatasetInfo "Beta" "http://b2" wInfo

def c9ds : List (String × DatasetRecord) :=
  [("alpha", c9rec1), ("beta", c9rec2)]

/-- C9 witness: an exact key hit and a not-found case at a concrete
cache. -/
theorem dataset_lookup_fallback_witness :
    getDatasetInfo c9ds "alpha" = some c9rec1
  ∧ getDatasetInfo c9ds "nosuch" = none :=
  ⟨(dataset_lookup_fallback c9ds "alpha").1 c9rec1 (by decide),
   ((dataset_lookup_fallback c9ds "nosuch").2.1).mpr (by decide)⟩

/-- C10: `registerKnownService` is total (its except branch that would
return an error string is unreachable, since `_refresh_datasets`
swallows every exception): for EVERY remote — in particular one on
which every probe and the catalog fail — the registry insertion
happens before the forced discovery (the new URL is probed during the
pass) and is not rolled back when discovery fails; the returned message
is the success confirmation.  The final conjunct shows the retention
concretely on an all-failing remote. -/
theorem add_known_service_registry_retention (remote : Remote)
    (st : GISState) (now : Nat) (service_name service_url : String) :
    (addKnownService remote st now service_name service_url).state.knownServices
        = dinsert service_name service_url st.knownServices
      ∧ dlookup service_name
          (addKnownService remote st now service_name
            service_url).state.knownServices
        = some service_url
      ∧ service_url ∈
          (addKnownService remote st now service_name service_url).trace
      ∧ (addKnownService remote st now service_name service_url).message
        = "Successfully added service " ++ squote ++ service_name ++ squote
          ++ " at " ++ service_url ++ ". Found "
          ++ toString (addKnownService remote st now service_name
              service_url).state.cachedDatasets.length
          ++ " total datasets."
      ∧ (addKnownService crashRemote priorState 9 "N"
          "http://n").state.knownServices = [("N", "http://n")] := by
  refine ⟨rfl, ?_, ?_, rfl, by decide⟩
  · show dlookup service_name
      (dinsert service_name service_url st.knownServices) = some service_url
    exact dlookup_dinsert_self _ _ _
  · show service_url ∈ (forcedWS remote
      { st with knownServices :=
          dinsert service_name service_url st.knownServices }).trace
    exact catalogPhase_trace remote _ _ _
      (knownPhase_trace_of_mem remote _ _ service_name service_url
        (mem_dinsert_self service_name service_url st.knownServices))

end EthekwiniGIS
